import Mathlib

/-
Verification development for the `wineuplay` runner
(src/lutris/runners/wineuplay.py).

The module is shallowly embedded: pure decision logic is translated to
executable Lean functions; external collaborators (the filesystem, the
Wine registry parser, the generic wine runner, process liveness, and the
subprocess layer) are modelled as an explicit environment record whose
fields are the oracles those collaborators provide.  Python exceptions
are modelled with `Except`; Python `None` with `Option`.  Side-effecting
probes (filesystem existence checks and registry queries) are recorded in
an explicit event trace so that "never touches X" properties can be
stated as facts about the trace.
-/

set_option autoImplicit false

namespace Wineuplay

/-! ### Python string and path primitives -/

/-- Model of `posixpath.join a b` for two components: an absolute second
component replaces the first, otherwise they are joined with a single
slash (none added when `a` is empty or already ends with a slash). -/
def os_join (a b : String) : String :=
  if b.toList.head? = some '/' then b
  else if a = "" then b
  else if a.toList.getLast? = some '/' then a ++ b
  else a ++ "/" ++ b

/-- Split a character list on a separator character, Python
`str.split(sep)` style: `n` separators yield `n + 1` (possibly empty)
chunks. -/
def splitCharList (c : Char) : List Char → List (List Char)
  | [] => [[]]
  | x :: xs =>
    let r := splitCharList c xs
    if x = c then [] :: r
    else
      match r with
      | [] => [[x]]
      | y :: ys => (x :: y) :: ys

/-- Model of Python `s.split(c)` for a single-character separator. -/
def pySplitChar (s : String) (c : Char) : List String :=
  (splitCharList c s.toList).map (fun l => String.mk l)

/-- Model of Python `s.strip(c)` for a single-character strip set: remove
every leading and trailing occurrence of `c`. -/
def pyStripChar (s : String) (c : Char) : String :=
  String.mk (((s.toList.dropWhile (fun x => x == c)).reverse.dropWhile
    (fun x => x == c)).reverse)

/-! ### Exceptions -/

/-- Python exceptions that the embedded code can raise. -/
inductive Err where
  /-- `IndexError`, e.g. `parts[1]` on a too-short list. -/
  | indexError
  /-- `AttributeError`, e.g. `None.keys()`. -/
  | attributeError
  /-- `ValueError msg` raised explicitly by the runner. -/
  | valueError (msg : String)
  /-- `RuntimeError msg` raised explicitly by the runner. -/
  | runtimeError (msg : String)
  deriving DecidableEq, Repr

/-! ### Configuration records -/

/-- The runner-level configuration consumed by `wineuplay`
(`self.runner_config`).  `uplay_path` and `args` model `dict.get`, hence
`Option`; the two default prefix options always carry a value (the option
schema supplies a default), matching the source's direct indexing
`runner_config["default_%s_prefix" % arch]`. -/
structure RunnerConfig where
  uplay_path : Option String
  args : Option String
  default_win32_pfx : String
  default_win64_pfx : String
  deriving Repr

/-- The per-game configuration (`self.game_config`). -/
structure GameConfig where
  game_id : Option String
  pfx : Option String
  arch : Option String
  nolaunch : Bool
  deriving Repr

/-! ### The external environment

All collaborators outside this module (filesystem, registry parser,
wine runner base class, process table, subprocess execution) are modelled
as oracles collected in one record. -/

/-- Oracles for the external collaborators of the runner. -/
structure SysEnv where
  /-- `system.path_exists`. -/
  path_exists : String → Bool
  /-- `os.path.expanduser`. -/
  expanduser : String → String
  /-- `os.path.abspath`. -/
  abspath : String → String
  /-- `system.fix_path_case`. -/
  fix_path_case : String → String
  /-- `WineRegistry(hive).query(key, valueName)`: first argument is the
  hive file path, then the key path and value name; `none` is absence. -/
  registry_query : String → String → String → Option String
  /-- `WineRegistry(hive).query(key)` with no value name: returns the
  mapping of subkey names to values, or absent. -/
  registry_query_key : String → String → Option (List (String × String))
  /-- `WineRegistry(hive).get_unix_path(windows_path)`. -/
  get_unix_path : String → String → String
  /-- `lutris.util.strings.split_arguments`. -/
  split_arguments : String → List String
  /-- `self.get_executable()` from the wine base runner. -/
  get_executable : String
  /-- `WINE_DEFAULT_ARCH` (the class `default_arch`). -/
  wine_default_arch : String
  /-- `settings.TMP_PATH`. -/
  tmp_path : String
  /-- Result of `super().is_installed(...)` from the wine base runner. -/
  wine_installed : Bool
  /-- Outcome of `self.shutdown()` (the graceful stop request): `some e`
  means it raises `e`. -/
  shutdown_exc : Option Err
  /-- The stream of `is_running()` observations: `alive n` is what the
  `n`-th call to `is_running()` inside one `force_shutdown` run reports. -/
  alive : Nat → Bool
  /-- Outcome of `wineexec path args ...`: `some e` means it raises. -/
  wineexec_exc : String → String → Option Err
  /-- Outcome of `winetricks components ...`: `some e` means it raises. -/
  winetricks_exc : String → Option Err
  /-- Whether an `on_complete` callback was supplied to `install`. -/
  has_callback : Bool
  /-- Outcome of invoking the callback: `some e` means it raises. -/
  callback_exc : Option Err

/-! ### Module constants (exact strings from the source)

Two of the source's string literals use a backslash line continuation
inside the literal, so the literal itself contains the indentation of the
continuation line.  The embedded constants reproduce those bytes. -/

/-- `DX2010_INSTALLER_URL`. -/
def DX2010_INSTALLER_URL : String :=
  "https://lutris.net/files/tools/directx-2010.tar.gz"

/-- `UPLAY_INSTALLER_URL`; the source literal wraps with a backslash
continuation, so 23 spaces of indentation are part of the string. -/
def UPLAY_INSTALLER_URL : String :=
  "https://ubistatic3-a.akamaihd.net/orbit/                       launcher_installer/UplayInstaller.exe"

/-- First well-known relative subpath probed inside a prefix; the source
literal wraps with a backslash continuation, so 16 spaces of indentation
are part of the string. -/
def uplay_sub1 : String :=
  "drive_c/Program Files (x86)/Ubisoft/Ubisoft Game Launcher/                upc.exe"

/-- Second well-known relative subpath probed inside a prefix. -/
def uplay_sub2 : String :=
  "drive_c/Program Files/Ubisoft/Ubisoft Game Launcher/upc.exe"

/-- The registry key holding the URI handler open command. -/
def uplay_open_command_key : String :=
  "Software/Classes/uplay/Shell/Open/Command"

/-- The registry subtree listing the launcher's per-game records. -/
def game_starter_key : String :=
  "Software/Ubisoft/Uplay/GameStarter"

/-! ### Probe events

Each filesystem existence check and registry query performed by the
executable locator is recorded as one event, in order. -/

/-- One observable probe of the outside world. -/
inductive Probe where
  /-- `system.path_exists p`. -/
  | pathCheck (p : String)
  /-- `WineRegistry(hive).query(key, valueName)`. -/
  | regQuery (hive key valueName : String)
  deriving DecidableEq, Repr

/-! ### get_open_command -/

/-- `wineuplay.get_open_command` (src lines 189-198): query the URI
handler key for value name `"default"`; return `None` when the value is
absent or falsy, otherwise split on the double quote and take
`parts[1].strip("\x5c")`.  A non-empty value containing no double quote
makes `parts` a singleton and `parts[1]` raise `IndexError`. -/
def get_open_command (env : SysEnv) (hive : String) : Except Err (Option String) :=
  match env.registry_query hive uplay_open_command_key "default" with
  | none => .ok none
  | some v =>
    if v = "" then .ok none
    else
      match pySplitChar v '"' with
      | _ :: p :: _ => .ok (some (pyStripChar p '\\'))
      | _ => .error .indexError

/-! ### Prefix resolution -/

/-- `get_default_prefix` (src lines 365-367): read
`runner_config["default_%s_prefix" % arch]`.  Only `"win64"` and
`"win32"` keys exist; the source is only ever called with these two. -/
def get_default_pfx (rcfg : RunnerConfig) (arch : String) : String :=
  if arch = "win64" then rcfg.default_win64_pfx
  else rcfg.default_win32_pfx

/-- `get_or_create_default_prefix` (src lines 369-376): normalise a
missing or `"auto"` architecture to the module default, then return the
default prefix path (creating it on disk is an external side effect that
does not change the returned path). -/
def get_or_create_default_pfx (env : SysEnv) (rcfg : RunnerConfig)
    (arch : Option String) : String :=
  let a :=
    match arch with
    | none => env.wine_default_arch
    | some s => if s = "" ∨ s = "auto" then env.wine_default_arch else s
  get_default_pfx rcfg a

/-- The prefix used by the registry-reading helpers (src lines 306-309,
319-322): the game's explicit `prefix` option when truthy, else the
(created-on-demand) default prefix for the game's architecture option. -/
def game_pfx (env : SysEnv) (rcfg : RunnerConfig) (gcfg : GameConfig) : String :=
  match gcfg.pfx with
  | some p => if p = "" then get_or_create_default_pfx env rcfg gcfg.arch else p
  | none => get_or_create_default_pfx env rcfg gcfg.arch

/-! ### The executable locator -/

/-- The candidate prefixes probed by `get_uplay_path` (src lines
232-236), in source order. -/
def uplay_candidates (env : SysEnv) (rcfg : RunnerConfig) : List String :=
  [get_default_pfx rcfg "win64",
   get_default_pfx rcfg "win32",
   env.expanduser "~/.wine"]

/-- One iteration of the candidate loop of `get_uplay_path` (src lines
237-256): probe the two well-known subpaths, then fall back to the
`user.reg` open command.  `none` in the first component means the Python
`continue`; `some r` means the loop returns (or raises) `r`.  The second
component is the trace of probes this iteration performed. -/
def search_pfx (env : SysEnv) (p : String) :
    Option (Except Err String) × List Probe :=
  let c1 := os_join p uplay_sub1
  let c2 := os_join p uplay_sub2
  if env.path_exists c1 then (some (.ok c1), [.pathCheck c1])
  else if env.path_exists c2 then (some (.ok c2), [.pathCheck c1, .pathCheck c2])
  else
    let ureg := os_join p "user.reg"
    let base : List Probe := [.pathCheck c1, .pathCheck c2, .pathCheck ureg]
    if env.path_exists ureg then
      let q : Probe := .regQuery ureg uplay_open_command_key "default"
      match get_open_command env ureg with
      | .error e => (some (.error e), base ++ [q])
      | .ok none => (none, base ++ [q])
      | .ok (some up) =>
        if up = "" then (none, base ++ [q])
        else (some (.ok (env.fix_path_case (env.get_unix_path ureg up))),
              base ++ [q])
    else (none, base)

/-- The candidate loop of `get_uplay_path`: try each prefix with
`search_pfx`, return on the first one that yields a result, and return
`""` when the list is exhausted (src line 257). -/
def search_candidates (env : SysEnv) : List String → Except Err String × List Probe
  | [] => (.ok "", [])
  | p :: rest =>
    let r := search_pfx env p
    match r.1 with
    | some res => (res, r.2)
    | none =>
      let r2 := search_candidates env rest
      (r2.1, r.2 ++ r2.2)

/-- `get_uplay_path` (src lines 222-257), instrumented with the probe
trace.  A truthy `uplay_path` option is joined with `Uplay.exe`,
expanded and absolutised, and returned when it exists on disk; otherwise
the fixed candidate prefixes are searched. -/
def get_uplay_path (env : SysEnv) (rcfg : RunnerConfig) :
    Except Err String × List Probe :=
  let custom := rcfg.uplay_path.getD ""
  if custom = "" then search_candidates env (uplay_candidates env rcfg)
  else
    let cp := env.abspath (env.expanduser (os_join custom "Uplay.exe"))
    if env.path_exists cp then (.ok cp, [.pathCheck cp])
    else
      let r := search_candidates env (uplay_candidates env rcfg)
      (r.1, Probe.pathCheck cp :: r.2)

/-- The value returned (or exception raised) by `get_uplay_path`. -/
def get_uplay_path_res (env : SysEnv) (rcfg : RunnerConfig) : Except Err String :=
  (get_uplay_path env rcfg).1

/-! ### Command construction -/

/-- The `launch_args` property (src lines 178-187): raise `RuntimeError`
when no Uplay executable can be found, else
`[wine executable, uplay path] + split_arguments(args or "")`. -/
def launch_args (env : SysEnv) (rcfg : RunnerConfig) : Except Err (List String) :=
  match get_uplay_path_res env rcfg with
  | .error e => .error e
  | .ok p =>
    if p = "" then .error (.runtimeError "Cant find a Uplay executable")
    else .ok (env.get_executable :: p :: env.split_arguments (rcfg.args.getD ""))

/-- `is_installed` (src lines 288-301): wine must be installed, the
default-architecture default prefix must exist, and the located Uplay
path must exist. -/
def is_installed (env : SysEnv) (rcfg : RunnerConfig) : Except Err Bool :=
  if env.wine_installed = false then .ok false
  else if env.path_exists (get_default_pfx rcfg env.wine_default_arch) = false then
    .ok false
  else
    match get_uplay_path_res env rcfg with
    | .error e => .error e
    | .ok p => .ok (env.path_exists p)

/-- The `game_id` property (src lines 145-148): the option value or `""`. -/
def game_id_prop (gcfg : GameConfig) : String :=
  gcfg.game_id.getD ""

/-- `install_game` (src lines 378-385): raise `ValueError` on a falsy
game id, else execute `launch_args + ["uplay://install/<id>"]`; the
executed argv is the result. -/
def install_game (env : SysEnv) (rcfg : RunnerConfig) (game_id : String) :
    Except Err (List String) :=
  if game_id = "" then
    .error (.valueError "Missing game ID in wineuplay.install_game")
  else
    match launch_args env rcfg with
    | .error e => .error e
    | .ok cmd => .ok (cmd ++ ["uplay://install/" ++ game_id])

/-- `get_command` (src lines 418-423): the launch args, plus
`uplay://launch/<game_id>` unless the `nolaunch` option is set. -/
def get_command (env : SysEnv) (rcfg : RunnerConfig) (gcfg : GameConfig) :
    Except Err (List String) :=
  match launch_args env rcfg with
  | .error e => .error e
  | .ok cmd =>
    if gcfg.nolaunch then .ok cmd
    else .ok (cmd ++ ["uplay://launch/" ++ game_id_prop gcfg])

/-! ### Registry readers -/

/-- `get_game_id_list` (src lines 304-315): when the prefix's `user.reg`
exists, query the `GameStarter` subtree and return `apps.keys()`; a
missing subtree makes `apps` equal to `None` and `None.keys()` raise
`AttributeError`; when `user.reg` does not exist the function falls off
the end and returns `None`. -/
def get_game_id_list (env : SysEnv) (rcfg : RunnerConfig) (gcfg : GameConfig) :
    Except Err (Option (List String)) :=
  let p := game_pfx env rcfg gcfg
  let ureg := os_join p "user.reg"
  if env.path_exists ureg then
    match env.registry_query_key ureg game_starter_key with
    | some apps => .ok (some (apps.map (fun kv => kv.1)))
    | none => .error .attributeError
  else .ok none

/-- The 64-bit (Wow6432-rooted) installs key for a game id. -/
def wow_installs_key (gid : String) : String :=
  "Software/Wow6432/Ubisoft/Launcher/Installs/" ++ gid

/-- The direct installs key for a game id. -/
def direct_installs_key (gid : String) : String :=
  "Software/Ubisoft/Launcher/Installs/" ++ gid

/-- `get_game_path_from_game_id` (src lines 317-340), instrumented with
the registry queries performed.  `arch` is the result of the inherited
`wine_arch()`.  Queries the `InstallDir` value under the Wow6432-rooted
key for `win64` and under the direct key otherwise; a falsy or absent
value yields `none` (the source logs a warning and returns `None`). -/
def get_game_path_from_game_id (env : SysEnv) (rcfg : RunnerConfig)
    (gcfg : GameConfig) (arch : String) (gid : String) :
    Option String × List Probe :=
  let p := game_pfx env rcfg gcfg
  let sreg := os_join p "system.reg"
  let key := if arch = "win64" then wow_installs_key gid else direct_installs_key gid
  match env.registry_query sreg key "InstallDir" with
  | some gp =>
    (if gp = "" then none else some gp, [Probe.regQuery sreg key "InstallDir"])
  | none => (none, [Probe.regQuery sreg key "InstallDir"])

/-! ### The shutdown controller -/

/-- The inner `has_uplay_shutdown` helper of `force_shutdown` (src lines
391-395): up to `times` polls, each consuming one liveness observation
starting at index `start`; returns whether the process was observed gone
(Python `True` vs. falling off end, i.e. `None`) together with the number
of polls actually issued. -/
def has_uplay_shutdown (alive : Nat → Bool) (start : Nat) : Nat → Bool × Nat
  | 0 => (false, 0)
  | t + 1 =>
    if alive start then
      let r := has_uplay_shutdown alive (start + 1) t
      (r.1, r.2 + 1)
    else (true, 1)

/-- Observable outcome of one `force_shutdown` run: whether `kill()` was
invoked, how many polls each phase issued, and whether the final failure
was logged. -/
structure ShutdownResult where
  killed : Bool
  gracefulPolls : Nat
  forcedPolls : Nat
  loggedError : Bool
  deriving DecidableEq, Repr

/-- `force_shutdown` (src lines 387-406).  Observation index 0 is the
entry `is_running()` guard; the graceful phase polls indices 1..10; after
escalation the forced phase polls indices 11..15.  Only `self.shutdown()`
(the graceful stop request) can raise; ultimate failure to terminate is
logged, not raised. -/
def force_shutdown (alive : Nat → Bool) (shutdown_exc : Option Err) :
    Except Err ShutdownResult :=
  if alive 0 then
    match shutdown_exc with
    | some e => .error e
    | none =>
      let r1 := has_uplay_shutdown alive 1 10
      if r1.1 then .ok ⟨false, r1.2, 0, false⟩
      else
        let r2 := has_uplay_shutdown alive 11 5
        if r2.1 then .ok ⟨true, r1.2, r2.2, false⟩
        else .ok ⟨true, r1.2, r2.2, true⟩
  else .ok ⟨false, 0, 0, false⟩

/-- `remove_game_data` (src lines 435-449): return `False` (here
`ok none`) with a warning when not installed; otherwise force a
shutdown, then start the uninstall command
`launch_args + ["uplay://uninstall/<id>"]` where `<id>` is the argument
when truthy, else the game option id.  `ok (some argv)` is the argv of
the started `MonitoredCommand`. -/
def remove_game_data (env : SysEnv) (rcfg : RunnerConfig) (gcfg : GameConfig)
    (game_id : Option String) : Except Err (Option (List String)) :=
  match is_installed env rcfg with
  | .error e => .error e
  | .ok false => .ok none
  | .ok true =>
    match force_shutdown env.alive env.shutdown_exc with
    | .error e => .error e
    | .ok _ =>
      match launch_args env rcfg with
      | .error e => .error e
      | .ok cmd =>
        let gid :=
          match game_id with
          | some s => if s = "" then game_id_prop gcfg else s
          | none => game_id_prop gcfg
        .ok (some (cmd ++ ["uplay://uninstall/" ++ gid]))

/-! ### The install pipeline -/

/-- One post-download step of the install pipeline, as an event. -/
inductive InstallStep where
  /-- `wineexec path args` in prefix `pfx`. -/
  | wineexecStep (path args pfx : String)
  /-- `winetricks components` in prefix `pfx`. -/
  | winetricksStep (components pfx : String)
  /-- Invoking the completion callback. -/
  | callbackStep
  deriving DecidableEq, Repr

/-- Download target for the auxiliary DirectX archive (src line 260). -/
def dx2010_path (env : SysEnv) : String :=
  os_join env.tmp_path "dxsetup.zip"

/-- Download target for the Uplay installer (src line 261). -/
def installer_path (env : SysEnv) : String :=
  os_join env.tmp_path "UplayInstaller.exe"

/-- The winetricks components installed by the pipeline (src line 274). -/
def winetricks_components : String :=
  "corefonts d3dcompiler_43 gdiplus"

/-- The `on_uplay_downloaded` continuation of `install` (src lines
263-283): resolve the default prefix, then run, strictly in order, the
auxiliary DirectX installer, winetricks, the product installer, and the
completion callback; each step runs only if all previous steps
succeeded, and a failure propagates.  The second component is the
ordered trace of the steps that actually started. -/
def on_uplay_downloaded (env : SysEnv) (rcfg : RunnerConfig) :
    Except Err Unit × List InstallStep :=
  let p := get_or_create_default_pfx env rcfg none
  let s1 : InstallStep := .wineexecStep (dx2010_path env) "/silent" p
  let s2 : InstallStep := .winetricksStep winetricks_components p
  let s3 : InstallStep := .wineexecStep (installer_path env) "/S" p
  match env.wineexec_exc (dx2010_path env) "/silent" with
  | some e => (.error e, [s1])
  | none =>
    match env.winetricks_exc winetricks_components with
    | some e => (.error e, [s1, s2])
    | none =>
      match env.wineexec_exc (installer_path env) "/S" with
      | some e => (.error e, [s1, s2, s3])
      | none =>
        if env.has_callback then
          match env.callback_exc with
          | some e => (.error e, [s1, s2, s3, .callbackStep])
          | none => (.ok (), [s1, s2, s3, .callbackStep])
        else (.ok (), [s1, s2, s3])

/-- The two download dispatches issued by `install` (src lines 285-286),
in order; the second one carries `on_uplay_downloaded` as its completion
continuation. -/
structure InstallDispatch where
  extract_url : String
  extract_target : String
  download_url : String
  download_target : String
  deriving DecidableEq, Repr

/-- `install` (src lines 259-286): download-and-extract the DirectX
archive, then hand the installer download to the external downloader
with `on_uplay_downloaded` as continuation. -/
def install (env : SysEnv) : InstallDispatch :=
  ⟨DX2010_INSTALLER_URL, dx2010_path env,
   UPLAY_INSTALLER_URL, installer_path env⟩

/-! ### Lemmas about the polling helper -/

/-- The helper never issues more polls than its budget. -/
theorem hus_polls_le (alive : Nat → Bool) : ∀ (t s : Nat),
    (has_uplay_shutdown alive s t).2 ≤ t := by
  intro t
  induction t with
  | zero => intro s; simp [has_uplay_shutdown]
  | succ t ih =>
    intro s
    simp only [has_uplay_shutdown]
    by_cases h : alive s = true
    · simp only [h, if_true]
      exact Nat.succ_le_succ (ih (s + 1))
    · simp [h]

/-- When the helper reports the process still running, it used its whole
budget and every poll observed the process alive. -/
theorem hus_not_shutdown (alive : Nat → Bool) : ∀ (t s : Nat),
    (has_uplay_shutdown alive s t).1 = false →
    (has_uplay_shutdown alive s t).2 = t ∧ ∀ i, i < t → alive (s + i) = true := by
  intro t
  induction t with
  | zero =>
    intro s _
    exact ⟨rfl, fun i hi => absurd hi (Nat.not_lt_zero i)⟩
  | succ t ih =>
    intro s h
    by_cases ha : alive s = true
    · simp only [has_uplay_shutdown, ha, if_true] at h ⊢
      obtain ⟨h1, h2⟩ := ih (s + 1) h
      refine ⟨by rw [h1], ?_⟩
      intro i hi
      cases i with
      | zero => simpa using ha
      | succ j =>
        have e : s + (j + 1) = s + 1 + j := by omega
        rw [e]
        exact h2 j (Nat.lt_of_succ_lt_succ hi)
    · simp [has_uplay_shutdown, ha] at h

/-- When the helper reports shutdown, it stopped at the first poll that
observed the process gone: that poll observed it gone, and every earlier
poll observed it alive. -/
theorem hus_shutdown (alive : Nat → Bool) : ∀ (t s : Nat),
    (has_uplay_shutdown alive s t).1 = true →
    1 ≤ (has_uplay_shutdown alive s t).2 ∧
    alive (s + ((has_uplay_shutdown alive s t).2 - 1)) = false ∧
    ∀ i, i + 1 < (has_uplay_shutdown alive s t).2 → alive (s + i) = true := by
  intro t
  induction t with
  | zero => intro s h; simp [has_uplay_shutdown] at h
  | succ t ih =>
    intro s h
    by_cases ha : alive s = true
    · simp only [has_uplay_shutdown, ha, if_true] at h ⊢
      obtain ⟨h1, h2, h3⟩ := ih (s + 1) h
      refine ⟨Nat.le_succ_of_le h1, ?_, ?_⟩
      · have e : s + (((has_uplay_shutdown alive (s + 1) t).2 + 1) - 1) =
            s + 1 + ((has_uplay_shutdown alive (s + 1) t).2 - 1) := by omega
        rw [e]
        exact h2
      · intro i hi
        cases i with
        | zero => simpa using ha
        | succ j =>
          have e : s + (j + 1) = s + 1 + j := by omega
          rw [e]
          exact h3 j (by omega)
    · have ha2 : alive s = false := by simpa using ha
      have hv : has_uplay_shutdown alive s (t + 1) = (true, 1) := by
        simp [has_uplay_shutdown, ha2]
      rw [hv]
      exact ⟨Nat.le_refl 1, by simpa using ha2, fun i hi => absurd hi (by omega)⟩

/-- If some poll within the budget would observe the process gone, the
helper reports shutdown. -/
theorem hus_of_gone (alive : Nat → Bool) : ∀ (t s j : Nat), j < t →
    alive (s + j) = false → (has_uplay_shutdown alive s t).1 = true := by
  intro t
  induction t with
  | zero => intro s j hj _; exact absurd hj (Nat.not_lt_zero j)
  | succ t ih =>
    intro s j hj hg
    by_cases ha : alive s = true
    · simp only [has_uplay_shutdown, ha, if_true]
      cases j with
      | zero =>
        rw [Nat.add_zero] at hg
        rw [hg] at ha
        exact absurd ha (by simp)
      | succ k =>
        refine ih (s + 1) k (by omega) ?_
        have e : s + 1 + k = s + (k + 1) := by omega
        rw [e]
        exact hg
    · simp [has_uplay_shutdown, ha]

/-- When every observation reports the process alive, the helper uses its
whole budget and reports failure. -/
theorem hus_all_alive (alive : Nat → Bool) (hall : ∀ i, alive i = true) :
    ∀ (t s : Nat), has_uplay_shutdown alive s t = (false, t) := by
  intro t
  induction t with
  | zero => intro s; rfl
  | succ t ih => intro s; simp [has_uplay_shutdown, hall s, ih (s + 1)]

/-- Claim C3: `force_shutdown` issues at most 10 liveness polls in the
graceful phase and at most 5 more after escalating to a forced kill;
each polling phase stops immediately on the first poll that observes the
process gone (all earlier polls observed it alive), and if the process
is observed gone during any graceful-phase poll, the forced-kill path is
never entered (no kill, no forced polls). -/
theorem claim_C3_shutdown_poll_bounds (alive : Nat → Bool) (res : ShutdownResult)
    (h : force_shutdown alive none = .ok res) :
    res.gracefulPolls ≤ 10 ∧ res.forcedPolls ≤ 5 ∧
    (∀ i, i + 1 < res.gracefulPolls → alive (1 + i) = true) ∧
    (res.killed = true → ∀ i, i + 1 < res.forcedPolls → alive (11 + i) = true) ∧
    (∀ j, j < 10 → alive (1 + j) = false →
      res.killed = false ∧ res.forcedPolls = 0) := by
  by_cases ha : alive 0 = true
  · simp only [force_shutdown, ha, if_true] at h
    by_cases h1 : (has_uplay_shutdown alive 1 10).1 = true
    · rw [if_pos h1] at h
      obtain ⟨hp1, hp2, hp3⟩ := hus_shutdown alive 10 1 h1
      cases h
      refine ⟨?_, ?_, ?_, ?_, ?_⟩ <;> dsimp only
      · exact hus_polls_le alive 10 1
      · omega
      · exact hp3
      · intro hk; exact absurd hk (by simp)
      · exact fun j _ _ => ⟨rfl, rfl⟩
    · rw [if_neg h1] at h
      have h1f : (has_uplay_shutdown alive 1 10).1 = false := by
        simpa using h1
      obtain ⟨hn1, hn2⟩ := hus_not_shutdown alive 10 1 h1f
      have hgone : ∀ j, j < 10 → alive (1 + j) = false → False := by
        intro j hj hg
        exact h1 (hus_of_gone alive 10 1 j hj hg)
      by_cases h2 : (has_uplay_shutdown alive 11 5).1 = true
      · rw [if_pos h2] at h
        obtain ⟨hq1, hq2, hq3⟩ := hus_shutdown alive 5 11 h2
        cases h
        refine ⟨?_, ?_, ?_, ?_, ?_⟩ <;> dsimp only
        · exact hus_polls_le alive 10 1
        · exact hus_polls_le alive 5 11
        · intro i hi; exact hn2 i (by omega)
        · exact fun _ => hq3
        · exact fun j hj hg => absurd (hgone j hj hg) (fun f => f)
      · rw [if_neg h2] at h
        have h2f : (has_uplay_shutdown alive 11 5).1 = false := by
          simpa using h2
        obtain ⟨hm1, hm2⟩ := hus_not_shutdown alive 5 11 h2f
        cases h
        refine ⟨?_, ?_, ?_, ?_, ?_⟩ <;> dsimp only
        · exact hus_polls_le alive 10 1
        · exact hus_polls_le alive 5 11
        · intro i hi; exact hn2 i (by omega)
        · intro _ i hi; exact hm2 i (by omega)
        · exact fun j hj hg => absurd (hgone j hj hg) (fun f => f)
  · have ha2 : alive 0 = false := by simpa using ha
    simp only [force_shutdown, ha2, Bool.false_eq_true, if_false] at h
    cases h
    refine ⟨?_, ?_, ?_, ?_, ?_⟩ <;> dsimp only
    · omega
    · omega
    · intro i hi; omega
    · intro hk; exact absurd hk (by simp)
    · exact fun j _ _ => ⟨rfl, rfl⟩

/-- A fake process that is observed gone on graceful poll 3: the run
stops after exactly 3 graceful polls, `kill()` is never invoked and no
forced poll is issued. -/
theorem claim_C3_shutdown_poll_bounds_witness :
    (⟨false, 3, 0, false⟩ : ShutdownResult).killed = false ∧
    (⟨false, 3, 0, false⟩ : ShutdownResult).forcedPolls = 0 := by
  have h := claim_C3_shutdown_poll_bounds (fun n => decide (n < 3))
    ⟨false, 3, 0, false⟩ rfl
  exact h.2.2.2.2 2 (by omega) (by decide)

/-- Claim C7: `force_shutdown` never raises when the process fails to
terminate within both poll windows (it returns with the failure merely
logged); the only exception it propagates is one raised by the graceful
stop request itself (and only when the process was running at entry);
and when the target process is not running at entry it is a no-op that
succeeds. -/
theorem claim_C7_shutdown_error_policy (alive : Nat → Bool) (exc : Option Err) :
    (alive 0 = false → force_shutdown alive exc = .ok ⟨false, 0, 0, false⟩) ∧
    (∀ e, force_shutdown alive exc = .error e → exc = some e ∧ alive 0 = true) ∧
    (exc = none → ∃ res, force_shutdown alive exc = .ok res) ∧
    (exc = none → (∀ i, alive i = true) →
      force_shutdown alive exc = .ok ⟨true, 10, 5, true⟩) := by
  refine ⟨?_, ?_, ?_, ?_⟩
  · intro h
    simp [force_shutdown, h]
  · intro e he
    by_cases ha : alive 0 = true
    · simp only [force_shutdown, ha, if_true] at he
      cases exc with
      | none =>
        by_cases h1 : (has_uplay_shutdown alive 1 10).1 = true
        · rw [if_pos h1] at he; exact absurd he (by simp)
        · rw [if_neg h1] at he
          by_cases h2 : (has_uplay_shutdown alive 11 5).1 = true
          · rw [if_pos h2] at he; exact absurd he (by simp)
          · rw [if_neg h2] at he; exact absurd he (by simp)
      | some e2 =>
        cases he
        exact ⟨rfl, ha⟩
    · have ha2 : alive 0 = false := by simpa using ha
      simp [force_shutdown, ha2] at he
  · intro h
    subst h
    by_cases ha : alive 0 = true
    · simp only [force_shutdown, ha, if_true]
      by_cases h1 : (has_uplay_shutdown alive 1 10).1 = true
      · rw [if_pos h1]; exact ⟨_, rfl⟩
      · rw [if_neg h1]
        by_cases h2 : (has_uplay_shutdown alive 11 5).1 = true
        · rw [if_pos h2]; exact ⟨_, rfl⟩
        · rw [if_neg h2]; exact ⟨_, rfl⟩
    · have ha2 : alive 0 = false := by simpa using ha
      exact ⟨⟨false, 0, 0, false⟩, by simp [force_shutdown, ha2]⟩
  · intro h hall
    subst h
    simp [force_shutdown, hall 0, hus_all_alive alive hall]

/-- Concrete runs of `force_shutdown`: a process that is not running at
entry is a no-op success even when the stop request would raise, and a
process that never terminates ends with the failure logged, not
raised. -/
theorem claim_C7_shutdown_error_policy_witness :
    force_shutdown (fun _ => false) (some .indexError) = .ok ⟨false, 0, 0, false⟩ ∧
    force_shutdown (fun _ => true) none = .ok ⟨true, 10, 5, true⟩ := by
  refine ⟨(claim_C7_shutdown_error_policy (fun _ => false) (some .indexError)).1 rfl, ?_⟩
  exact (claim_C7_shutdown_error_policy (fun _ => true) none).2.2.2 rfl (fun i => rfl)

/-! ### Concrete fixtures for witness scenarios -/

/-- A base environment with inert oracles; witness scenarios override
individual fields. -/
def baseEnv : SysEnv where
  path_exists := fun _ => false
  expanduser := fun s => s
  abspath := fun s => s
  fix_path_case := fun s => s
  registry_query := fun _ _ _ => none
  registry_query_key := fun _ _ => none
  get_unix_path := fun _ s => s
  split_arguments := fun _ => []
  get_executable := "wine"
  wine_default_arch := "win64"
  tmp_path := "/tmp/lutris"
  wine_installed := true
  shutdown_exc := none
  alive := fun _ => false
  wineexec_exc := fun _ _ => none
  winetricks_exc := fun _ => none
  has_callback := true
  callback_exc := none

/-- A concrete runner configuration with no custom Uplay location. -/
def rcfg0 : RunnerConfig where
  uplay_path := none
  args := none
  default_win32_pfx := "/r/wineuplay/prefix"
  default_win64_pfx := "/r/wineuplay/prefix64"

/-- The runner configuration with a custom Uplay location set. -/
def rcfgCustom : RunnerConfig :=
  { rcfg0 with uplay_path := some "/apps/uplay" }

/-- A game configuration with no game id, no explicit prefix and the
`nolaunch` flag unset. -/
def gcfgEmpty : GameConfig where
  game_id := none
  pfx := none
  arch := none
  nolaunch := false

/-- A filesystem on which only the custom Uplay executable (and the
win64 default prefix directory) exist. -/
def envCustom : SysEnv :=
  { baseEnv with
    path_exists := fun p =>
      p == "/apps/uplay/Uplay.exe" || p == "/r/wineuplay/prefix64" }

/-! ### Lemmas about the split helper -/

/-- Splitting a list that contains no separator yields that list as the
single chunk. -/
theorem splitCharList_no_sep (c : Char) : ∀ (l : List Char),
    (∀ x ∈ l, x ≠ c) → splitCharList c l = [l] := by
  intro l
  induction l with
  | nil => intro _; rfl
  | cons x xs ih =>
    intro h
    have hx : ¬(x = c) := h x (List.mem_cons_self x xs)
    have hxs := ih (fun y hy => h y (List.mem_cons_of_mem x hy))
    simp [splitCharList, hx, hxs]

/-- Splitting a string that contains no separator yields one chunk. -/
theorem pySplitChar_no_sep (v : String) (c : Char)
    (h : ∀ x ∈ v.toList, x ≠ c) :
    pySplitChar v c = [String.mk v.toList] := by
  unfold pySplitChar
  rw [splitCharList_no_sep c v.toList h]
  rfl

/-- Claim C9: the open-command parse in `get_open_command` is not total;
any non-empty value of the URI-handler key that contains no double-quote
character splits into fewer than two parts, so `parts[1]` raises
`IndexError` instead of yielding an absent result; and `get_open_command`
returns `None` exactly when the queried value is absent or falsy
(the empty string). -/
theorem claim_C9_open_command_not_total (env : SysEnv) (hive : String) :
    (∀ v, env.registry_query hive uplay_open_command_key "default" = some v →
      v ≠ "" → (∀ x ∈ v.toList, x ≠ '"') →
      get_open_command env hive = .error .indexError) ∧
    (get_open_command env hive = .ok none ↔
      env.registry_query hive uplay_open_command_key "default" = none ∨
      env.registry_query hive uplay_open_command_key "default" = some "") := by
  constructor
  · intro v hv hne hnc
    simp only [get_open_command, hv]
    rw [if_neg hne, pySplitChar_no_sep v '"' hnc]
  · cases hq : env.registry_query hive uplay_open_command_key "default" with
    | none => simp [get_open_command, hq]
    | some v =>
      by_cases hv : v = ""
      · subst hv
        simp [get_open_command, hq]
      · simp only [get_open_command, hq]
        rw [if_neg hv]
        rcases hsp : pySplitChar v '"' with _ | ⟨a, _ | ⟨b, rest⟩⟩ <;>
          simp [hv]

/-- A concrete registry value with no double quote makes
`get_open_command` raise `IndexError`. -/
theorem claim_C9_open_command_not_total_witness :
    get_open_command
      { baseEnv with registry_query := fun _ _ _ => some "upc.exe uplay" }
      "/p/user.reg" = .error .indexError := by
  exact (claim_C9_open_command_not_total
      { baseEnv with registry_query := fun _ _ _ => some "upc.exe uplay" }
      "/p/user.reg").1 "upc.exe uplay" rfl (by decide) (by decide)

/-- Claim C8: `install_game` with an empty game id raises the
missing-identifier `ValueError` immediately — for every environment,
including ones where the launch args could not even be built — and with
any non-empty game id it builds the launch args plus the single URI
argument `uplay://install/<gameId>` and executes that command (the
executed argv is the result). -/
theorem claim_C8_install_game_validation (env : SysEnv) (rcfg : RunnerConfig)
    (gid : String) :
    (gid = "" → install_game env rcfg gid =
      .error (.valueError "Missing game ID in wineuplay.install_game")) ∧
    (gid ≠ "" → ∀ cmd, launch_args env rcfg = .ok cmd →
      install_game env rcfg gid = .ok (cmd ++ ["uplay://install/" ++ gid])) := by
  constructor
  · intro h
    simp [install_game, h]
  · intro h cmd hc
    simp [install_game, h, hc]

/-- With a configured custom location, the empty id fails with the
missing-identifier error and a concrete id yields the install argv. -/
theorem claim_C8_install_game_validation_witness :
    install_game envCustom rcfgCustom "" =
      .error (.valueError "Missing game ID in wineuplay.install_game") ∧
    install_game envCustom rcfgCustom "game1" =
      .ok ["wine", "/apps/uplay/Uplay.exe", "uplay://install/game1"] := by
  refine ⟨(claim_C8_install_game_validation envCustom rcfgCustom "").1 rfl, ?_⟩
  exact (claim_C8_install_game_validation envCustom rcfgCustom "game1").2
    (by decide) ["wine", "/apps/uplay/Uplay.exe"] rfl

/-- Claim C5: when a custom Uplay location is configured and the joined
executable path exists on disk, `get_uplay_path` returns that path, and
its probe trace is exactly the one existence check of that path — no
registry query and no probe of any default or fallback prefix is
performed. -/
theorem claim_C5_custom_path_short_circuit (env : SysEnv) (rcfg : RunnerConfig)
    (d : String) (hd : rcfg.uplay_path = some d) (hne : d ≠ "")
    (hex : env.path_exists (env.abspath (env.expanduser (os_join d "Uplay.exe"))) = true) :
    get_uplay_path env rcfg =
      (.ok (env.abspath (env.expanduser (os_join d "Uplay.exe"))),
       [.pathCheck (env.abspath (env.expanduser (os_join d "Uplay.exe")))]) := by
  simp [get_uplay_path, hd, hne, hex]

/-- The custom location scenario: the locator returns the custom path
after a single existence probe. -/
theorem claim_C5_custom_path_short_circuit_witness :
    get_uplay_path envCustom rcfgCustom =
      (.ok "/apps/uplay/Uplay.exe", [.pathCheck "/apps/uplay/Uplay.exe"]) := by
  exact claim_C5_custom_path_short_circuit envCustom rcfgCustom "/apps/uplay"
    rfl (by decide) rfl

/-- Claim C2: in the post-download continuation of the install pipeline,
the four steps run strictly in the fixed order [auxiliary DirectX
install, winetricks compatibility components, product installer,
completion callback]; and when the winetricks step raises, the product
installer step and the callback never appear in the executed-step trace
and the failure propagates as the continuation's error. -/
theorem claim_C2_install_pipeline_order (env : SysEnv) (rcfg : RunnerConfig) :
    (env.wineexec_exc (dx2010_path env) "/silent" = none →
     env.winetricks_exc winetricks_components = none →
     env.wineexec_exc (installer_path env) "/S" = none →
     env.has_callback = true → env.callback_exc = none →
     on_uplay_downloaded env rcfg =
       (.ok (),
        [.wineexecStep (dx2010_path env) "/silent"
           (get_or_create_default_pfx env rcfg none),
         .winetricksStep winetricks_components
           (get_or_create_default_pfx env rcfg none),
         .wineexecStep (installer_path env) "/S"
           (get_or_create_default_pfx env rcfg none),
         .callbackStep])) ∧
    (∀ e, env.wineexec_exc (dx2010_path env) "/silent" = none →
      env.winetricks_exc winetricks_components = some e →
      on_uplay_downloaded env rcfg =
        (.error e,
         [.wineexecStep (dx2010_path env) "/silent"
            (get_or_create_default_pfx env rcfg none),
          .winetricksStep winetricks_components
            (get_or_create_default_pfx env rcfg none)])) := by
  constructor
  · intro h1 h2 h3 h4 h5
    simp [on_uplay_downloaded, h1, h2, h3, h4, h5]
  · intro e h1 h2
    simp [on_uplay_downloaded, h1, h2]

/-- Concrete pipeline runs: with all steps succeeding the trace is the
four steps in order; with winetricks forced to fail, the trace stops
after winetricks and the error propagates. -/
theorem claim_C2_install_pipeline_order_witness :
    on_uplay_downloaded baseEnv rcfg0 =
      (.ok (),
       [.wineexecStep "/tmp/lutris/dxsetup.zip" "/silent" "/r/wineuplay/prefix64",
        .winetricksStep winetricks_components "/r/wineuplay/prefix64",
        .wineexecStep "/tmp/lutris/UplayInstaller.exe" "/S" "/r/wineuplay/prefix64",
        .callbackStep]) ∧
    on_uplay_downloaded
      { baseEnv with winetricks_exc := fun _ => some (.runtimeError "tricks") }
      rcfg0 =
      (.error (.runtimeError "tricks"),
       [.wineexecStep "/tmp/lutris/dxsetup.zip" "/silent" "/r/wineuplay/prefix64",
        .winetricksStep winetricks_components "/r/wineuplay/prefix64"]) := by
  constructor
  · exact (claim_C2_install_pipeline_order baseEnv rcfg0).1 rfl rfl rfl rfl rfl
  · exact (claim_C2_install_pipeline_order
      { baseEnv with winetricks_exc := fun _ => some (.runtimeError "tricks") }
      rcfg0).2 (.runtimeError "tricks") rfl rfl

/-- Claim C1: the executable locator probes the candidate prefixes in
exactly the fixed order [win64 default prefix, win32 default prefix,
`~/.wine` generic fallback], returning on the first candidate that
yields a hit; in particular when no custom location is configured, the
win64 default prefix yields no hit (neither well-known subpath exists
and its registry holds no usable open-command entry), and the first
well-known subpath exists under the win32 default prefix, the locator
returns that win32 path. -/
theorem claim_C1_candidate_search_order (env : SysEnv) (rcfg : RunnerConfig)
    (hc : rcfg.uplay_path = none)
    (h641 : env.path_exists (os_join (get_default_pfx rcfg "win64") uplay_sub1) = false)
    (h642 : env.path_exists (os_join (get_default_pfx rcfg "win64") uplay_sub2) = false)
    (hreg : env.registry_query (os_join (get_default_pfx rcfg "win64") "user.reg")
        uplay_open_command_key "default" = none ∨
      env.registry_query (os_join (get_default_pfx rcfg "win64") "user.reg")
        uplay_open_command_key "default" = some "")
    (h32 : env.path_exists (os_join (get_default_pfx rcfg "win32") uplay_sub1) = true) :
    uplay_candidates env rcfg =
      [rcfg.default_win64_pfx, rcfg.default_win32_pfx, env.expanduser "~/.wine"] ∧
    get_uplay_path_res env rcfg =
      .ok (os_join (get_default_pfx rcfg "win32") uplay_sub1) := by
  have hskip : (search_pfx env (get_default_pfx rcfg "win64")).1 = none := by
    simp only [search_pfx, h641, h642, Bool.false_eq_true, if_false]
    split
    · rcases hreg with h | h <;> simp [get_open_command, h]
    · rfl
  have hhit : search_pfx env (get_default_pfx rcfg "win32") =
      (some (.ok (os_join (get_default_pfx rcfg "win32") uplay_sub1)),
       [.pathCheck (os_join (get_default_pfx rcfg "win32") uplay_sub1)]) := by
    simp [search_pfx, h32]
  constructor
  · simp [uplay_candidates, get_default_pfx]
  · simp [get_uplay_path_res, get_uplay_path, hc, uplay_candidates,
      search_candidates, hskip, hhit]

/-- A stub filesystem where the executable exists only under the win32
default prefix while the win64 default prefix directory exists but
contains no executable and no registry hive: the locator returns the
win32 path. -/
theorem claim_C1_candidate_search_order_witness :
    get_uplay_path_res
      { baseEnv with
        path_exists := fun p =>
          p == os_join "/r/wineuplay/prefix" uplay_sub1 ||
          p == "/r/wineuplay/prefix64" }
      rcfg0 = .ok (os_join "/r/wineuplay/prefix" uplay_sub1) := by
  exact (claim_C1_candidate_search_order
    { baseEnv with
      path_exists := fun p =>
        p == os_join "/r/wineuplay/prefix" uplay_sub1 ||
        p == "/r/wineuplay/prefix64" }
    rcfg0 rfl rfl rfl (Or.inl rfl) rfl).2

/-- Claim C6: `get_game_path_from_game_id` performs exactly one registry
query, against the `InstallDir` value of the Wow6432-rooted key
precisely when the architecture is `win64` and of the direct key
otherwise; consequently, when the hive answers only under the 64-bit key
(the direct key is absent), resolution under a 32-bit architecture
yields an empty result — with no exception (the function is total). -/
theorem claim_C6_install_dir_key_selection (env : SysEnv) (rcfg : RunnerConfig)
    (gcfg : GameConfig) (arch gid : String) :
    (get_game_path_from_game_id env rcfg gcfg arch gid).2 =
      [.regQuery (os_join (game_pfx env rcfg gcfg) "system.reg")
        (if arch = "win64" then wow_installs_key gid else direct_installs_key gid)
        "InstallDir"] ∧
    (arch ≠ "win64" →
      env.registry_query (os_join (game_pfx env rcfg gcfg) "system.reg")
        (direct_installs_key gid) "InstallDir" = none →
      (get_game_path_from_game_id env rcfg gcfg arch gid).1 = none) := by
  constructor
  · simp only [get_game_path_from_game_id]
    split <;> rfl
  · intro ha hq
    simp [get_game_path_from_game_id, ha, hq]

/-- A hive answering only under the Wow6432-rooted 64-bit key. -/
def envWowOnly : SysEnv :=
  { baseEnv with
    registry_query := fun _ k v =>
      if k = wow_installs_key "game1" then
        if v = "InstallDir" then some "C:/games/g1" else none
      else none }

/-- With a hive containing only the 64-bit key, 64-bit resolution finds
the install dir and 32-bit resolution yields an empty result. -/
theorem claim_C6_install_dir_key_selection_witness :
    (get_game_path_from_game_id envWowOnly rcfg0 gcfgEmpty "win64" "game1").1 =
      some "C:/games/g1" ∧
    (get_game_path_from_game_id envWowOnly rcfg0 gcfgEmpty "win32" "game1").1 =
      none := by
  refine ⟨rfl, ?_⟩
  exact (claim_C6_install_dir_key_selection envWowOnly rcfg0 gcfgEmpty
    "win32" "game1").2 (by decide) rfl

/-- The environment of the C4 counterexample: the `user.reg` hive of the
default prefix exists but holds no `GameStarter` subtree. -/
def envHiveNoSubtree : SysEnv :=
  { baseEnv with
    path_exists := fun p => p == "/r/wineuplay/prefix64/user.reg" }

/-- The environment of the C4 amended-claim witness: the hive exists and
the `GameStarter` subtree holds two game records. -/
def envHiveWithGames : SysEnv :=
  { baseEnv with
    path_exists := fun p => p == "/r/wineuplay/prefix64/user.reg",
    registry_query_key := fun _ k =>
      if k = game_starter_key then some [("game1", ""), ("game2", "")] else none }

/-- Claim C4 counterexample: with the hive present but the subtree
absent, `get_game_id_list` raises `AttributeError` (from `None.keys()`)
rather than returning an empty collection; and with the hive absent it
returns an absent (`None`) result, not an empty collection. -/
theorem claim_C4_counterexample :
    get_game_id_list envHiveNoSubtree rcfg0 gcfgEmpty = .error .attributeError ∧
    get_game_id_list baseEnv rcfg0 gcfgEmpty = .ok none :=
  ⟨rfl, rfl⟩

/-- Claim C4 (amended): `get_game_id_list` queries the fixed subtree
`Software/Ubisoft/Uplay/GameStarter` in the prefix's `user.reg` and
returns the subkey names when the hive exists and the subtree is
present; when the hive is absent it returns an absent (`None`) result,
and when the hive exists but the subtree is absent it raises
`AttributeError` on the absent query result. -/
theorem claim_C4_game_id_list_behaviour (env : SysEnv) (rcfg : RunnerConfig)
    (gcfg : GameConfig) :
    (env.path_exists (os_join (game_pfx env rcfg gcfg) "user.reg") = false →
      get_game_id_list env rcfg gcfg = .ok none) ∧
    (∀ apps,
      env.path_exists (os_join (game_pfx env rcfg gcfg) "user.reg") = true →
      env.registry_query_key (os_join (game_pfx env rcfg gcfg) "user.reg")
        game_starter_key = some apps →
      get_game_id_list env rcfg gcfg =
        .ok (some (apps.map (fun kv => kv.1)))) ∧
    (env.path_exists (os_join (game_pfx env rcfg gcfg) "user.reg") = true →
      env.registry_query_key (os_join (game_pfx env rcfg gcfg) "user.reg")
        game_starter_key = none →
      get_game_id_list env rcfg gcfg = .error .attributeError) := by
  refine ⟨?_, ?_, ?_⟩
  · intro h
    simp [get_game_id_list, h]
  · intro apps h hq
    simp [get_game_id_list, h, hq]
  · intro h hq
    simp [get_game_id_list, h, hq]

/-- Concrete hives exercising all three behaviours of the amended
claim. -/
theorem claim_C4_game_id_list_behaviour_witness :
    get_game_id_list envHiveWithGames rcfg0 gcfgEmpty =
      .ok (some ["game1", "game2"]) ∧
    get_game_id_list baseEnv rcfg0 gcfgEmpty = .ok none ∧
    get_game_id_list envHiveNoSubtree rcfg0 gcfgEmpty = .error .attributeError := by
  refine ⟨?_, ?_, ?_⟩
  · exact (claim_C4_game_id_list_behaviour envHiveWithGames rcfg0 gcfgEmpty).2.1
      [("game1", ""), ("game2", "")] rfl rfl
  · exact (claim_C4_game_id_list_behaviour baseEnv rcfg0 gcfgEmpty).1 rfl
  · exact (claim_C4_game_id_list_behaviour envHiveNoSubtree rcfg0 gcfgEmpty).2.2
      rfl rfl

/-- Claim C10: only the install path validates the game id.  With the
`nolaunch` flag unset and an empty (or missing) game id, `get_command`
still appends `uplay://launch/` with the empty id and raises no error;
`remove_game_data` with no game id builds `uplay://uninstall/` with the
empty id and raises no missing-identifier error; while `install_game`
with an empty id raises the missing-identifier `ValueError`. -/
theorem claim_C10_only_install_validates_id (env : SysEnv) (rcfg : RunnerConfig)
    (gcfg : GameConfig) (cmd : List String)
    (hid : gcfg.game_id = none ∨ gcfg.game_id = some "")
    (hnl : gcfg.nolaunch = false)
    (hla : launch_args env rcfg = .ok cmd) :
    get_command env rcfg gcfg = .ok (cmd ++ ["uplay://launch/"]) ∧
    (is_installed env rcfg = .ok true →
      (∃ r, force_shutdown env.alive env.shutdown_exc = .ok r) →
      remove_game_data env rcfg gcfg none =
        .ok (some (cmd ++ ["uplay://uninstall/"]))) ∧
    install_game env rcfg "" =
      .error (.valueError "Missing game ID in wineuplay.install_game") := by
  refine ⟨?_, ?_, ?_⟩
  · rcases hid with h | h <;>
      simp [get_command, hla, hnl, game_id_prop, h, String.append_empty]
  · intro hi hf
    obtain ⟨r, hr⟩ := hf
    rcases hid with h | h <;>
      simp [remove_game_data, hi, hr, hla, game_id_prop, h, String.append_empty]
  · simp [install_game]

/-- The custom-location scenario with an empty game id: launch and
uninstall commands are built with the bare URI, no error raised. -/
theorem claim_C10_only_install_validates_id_witness :
    get_command envCustom rcfgCustom gcfgEmpty =
      .ok ["wine", "/apps/uplay/Uplay.exe", "uplay://launch/"] ∧
    remove_game_data envCustom rcfgCustom gcfgEmpty none =
      .ok (some ["wine", "/apps/uplay/Uplay.exe", "uplay://uninstall/"]) := by
  have h := claim_C10_only_install_validates_id envCustom rcfgCustom gcfgEmpty
    ["wine", "/apps/uplay/Uplay.exe"] (Or.inl rfl) rfl rfl
  exact ⟨h.1, h.2.1 rfl ⟨⟨false, 0, 0, false⟩, rfl⟩⟩

end Wineuplay
